import Mathlib

/-!
Verification of the AgentMail SMTP server core: the authentication error
taxonomy and the credential validation pipeline (src/auth/errors.ts and the
validator module), the session state machine and its manager
(src/session/session-state.ts, the session manager), the server command hooks
(src/server.ts), and the HTTP-to-SMTP status mapping
(src/errors/http-to-smtp-mapping.ts).

Modelling conventions:
- `Date` values are modelled as `Nat` epoch milliseconds; each handler
  invocation receives a single `now : Nat` standing for the wall-clock reads
  performed during that invocation.
- The asynchronous database accessors `getApiKey` / `getInbox` are modelled as
  fields of a `Database` record returning `Except String (Option record)`:
  `.error msg` models a thrown database error, `.ok none` models a miss.
- `validateSMTPCredentials` additionally returns the number of `getApiKey` and
  `getInbox` invocations performed, so that lookup-call counts are observable.
- Strings are Lean `String`s; the TypeScript `typeof` guards are vacuous in the
  typed embedding and the falsiness of the empty string is modelled explicitly.
-/

-- ===========================================================================
-- src/auth/errors.ts : error codes, taxonomy table, result types
-- ===========================================================================

/-- The `AuthErrorCode` enum of src/auth/errors.ts. -/
inductive AuthErrorCode
  | INVALID_API_KEY_FORMAT
  | API_KEY_NOT_FOUND
  | API_KEY_REVOKED
  | API_KEY_EXPIRED
  | INVALID_INBOX_ID_FORMAT
  | INBOX_NOT_FOUND
  | INBOX_DISABLED
  | INBOX_SUSPENDED
  | INBOX_ORG_MISMATCH
  | INSUFFICIENT_PERMISSIONS
  | DATABASE_ERROR
  | RATE_LIMITED
  | SERVICE_UNAVAILABLE
deriving DecidableEq, Repr

/-- `AuthErrorDefinition` (the `AuthError` interface minus `logMessage`). -/
structure AuthErrorDefinition where
  code : AuthErrorCode
  smtpCode : Nat
  enhancedCode : String
  message : String
deriving DecidableEq, Repr

/-- The `AUTH_ERRORS` table of src/auth/errors.ts: one definition per code. -/
def AUTH_ERRORS : AuthErrorCode → AuthErrorDefinition
  | .INVALID_API_KEY_FORMAT =>
      ⟨.INVALID_API_KEY_FORMAT, 535, "5.7.8", "Authentication credentials invalid"⟩
  | .API_KEY_NOT_FOUND =>
      ⟨.API_KEY_NOT_FOUND, 535, "5.7.8", "Authentication credentials invalid"⟩
  | .API_KEY_REVOKED =>
      ⟨.API_KEY_REVOKED, 535, "5.7.8", "Authentication credentials invalid"⟩
  | .API_KEY_EXPIRED =>
      ⟨.API_KEY_EXPIRED, 535, "5.7.8", "Authentication credentials invalid"⟩
  | .INVALID_INBOX_ID_FORMAT =>
      ⟨.INVALID_INBOX_ID_FORMAT, 535, "5.7.8", "Authentication credentials invalid"⟩
  | .INBOX_NOT_FOUND =>
      ⟨.INBOX_NOT_FOUND, 535, "5.7.8", "Authentication credentials invalid"⟩
  | .INBOX_DISABLED =>
      ⟨.INBOX_DISABLED, 535, "5.7.8", "Authentication credentials invalid"⟩
  | .INBOX_SUSPENDED =>
      ⟨.INBOX_SUSPENDED, 535, "5.7.8", "Account suspended - contact support"⟩
  | .INBOX_ORG_MISMATCH =>
      ⟨.INBOX_ORG_MISMATCH, 535, "5.7.8", "Authentication credentials invalid"⟩
  | .INSUFFICIENT_PERMISSIONS =>
      ⟨.INSUFFICIENT_PERMISSIONS, 535, "5.7.8", "Insufficient permissions for SMTP access"⟩
  | .DATABASE_ERROR =>
      ⟨.DATABASE_ERROR, 454, "4.7.0", "Temporary authentication failure, please retry"⟩
  | .RATE_LIMITED =>
      ⟨.RATE_LIMITED, 454, "4.7.0", "Too many authentication attempts, please retry later"⟩
  | .SERVICE_UNAVAILABLE =>
      ⟨.SERVICE_UNAVAILABLE, 454, "4.7.0", "Authentication service temporarily unavailable"⟩

/-- The `AuthError` interface: a definition plus the internal log message. -/
structure AuthError where
  code : AuthErrorCode
  smtpCode : Nat
  enhancedCode : String
  message : String
  logMessage : String
deriving DecidableEq, Repr

/-- `createAuthError` of src/auth/errors.ts. -/
def createAuthError (errorCode : AuthErrorCode) (logMessage : String) : AuthError :=
  let d := AUTH_ERRORS errorCode
  ⟨d.code, d.smtpCode, d.enhancedCode, d.message, logMessage⟩

/-- The `AuthenticatedUser` interface of src/auth/errors.ts. -/
structure AuthenticatedUser where
  inbox_id : String
  organization_id : String
  email_address : String
  api_key_id : String
deriving DecidableEq, Repr

/-- The `AuthResult` union type of src/auth/errors.ts. -/
inductive AuthResult
  | success (user : AuthenticatedUser)
  | failure (error : AuthError)
deriving DecidableEq, Repr

-- ===========================================================================
-- src/mock/database.ts : record shapes and the database interface
-- ===========================================================================

/-- The `MockApiKey` interface; the timestamp strings are modelled as epoch
milliseconds (`revoked_at` is only tested for presence, `expires_at` is
compared with the current time). -/
structure MockApiKey where
  api_key_id : String
  organization_id : String
  revoked_at : Option Nat
  expires_at : Option Nat
  scopes : List String
  name : String
  created_at : Nat
deriving DecidableEq, Repr

/-- The inbox status union `'active' | 'disabled' | 'suspended'`. -/
inductive InboxStatus
  | active
  | disabled
  | suspended
deriving DecidableEq, Repr

/-- The `MockInbox` interface of src/mock/database.ts. -/
structure MockInbox where
  inbox_id : String
  email_address : String
  organization_id : String
  status : InboxStatus
  display_name : Option String
  created_at : Nat
deriving DecidableEq, Repr

/-- The database accessors `getApiKey` / `getInbox`; `.error` models a thrown
lookup-layer fault, `.ok none` models a record that is absent. -/
structure Database where
  getApiKey : String → Except String (Option MockApiKey)
  getInbox : String → Except String (Option MockInbox)

-- ===========================================================================
-- Validator module : format regexes and validateSMTPCredentials
-- ===========================================================================

/-- The character class `[a-zA-Z0-9._%+-]` of the email local part. -/
def isLocalPartChar (c : Char) : Bool :=
  c.isAlphanum || c == '.' || c == '_' || c == '%' || c == '+' || c == '-'

/-- The character class `[a-zA-Z0-9.-]` of the email domain part. -/
def isDomainChar (c : Char) : Bool :=
  c.isAlphanum || c == '.' || c == '-'

/-- The legacy alternative `inb_[a-zA-Z0-9]{12,32}` of `INBOX_ID_REGEX`,
anchored on both sides. -/
def legacyInboxFormat (cs : List Char) : Bool :=
  match cs with
  | 'i' :: 'n' :: 'b' :: '_' :: rest =>
      decide (12 ≤ rest.length) && decide (rest.length ≤ 32) && rest.all Char.isAlphanum
  | _ => false

/-- The anchored domain pattern `[a-zA-Z0-9.-]+\.[a-zA-Z]{2,}` of
`INBOX_ID_REGEX`. The top-level label must be all-alphabetic and run to the
end of the string, so the separating dot of any match is the last dot. -/
def emailDomainFormat (cs : List Char) : Bool :=
  let revTld := cs.reverse.takeWhile (fun c => c != '.')
  match cs.reverse.drop revTld.length with
  | '.' :: revRest =>
      decide (2 ≤ revTld.length) && revTld.all Char.isAlpha &&
      decide (revRest.length ≠ 0) && revRest.all isDomainChar
  | _ => false

/-- The email alternative `[a-zA-Z0-9._%+-]+@[a-zA-Z0-9.-]+\.[a-zA-Z]{2,}` of
`INBOX_ID_REGEX`; neither character class contains `@`, so the separator of
any match is the first `@`. -/
def emailInboxFormat (cs : List Char) : Bool :=
  let localPart := cs.takeWhile (fun c => c != '@')
  match cs.drop localPart.length with
  | '@' :: domainPart =>
      decide (localPart.length ≠ 0) && localPart.all isLocalPartChar &&
      emailDomainFormat domainPart
  | _ => false

/-- `validateInboxIdFormat`: `INBOX_ID_REGEX.test`, the anchored alternation of
the legacy token pattern and the email address pattern. -/
def validateInboxIdFormat (inboxId : String) : Bool :=
  legacyInboxFormat inboxId.toList || emailInboxFormat inboxId.toList

/-- `validateApiKeyFormat`: `API_KEY_REGEX.test`, the anchored pattern
`am_[a-zA-Z0-9]{32,128}`. -/
def validateApiKeyFormat (apiKey : String) : Bool :=
  match apiKey.toList with
  | 'a' :: 'm' :: '_' :: rest =>
      decide (32 ≤ rest.length) && decide (rest.length ≤ 128) && rest.all Char.isAlphanum
  | _ => false

/-- Steps 6 to 9 of `validateSMTPCredentials` (scope check, inbox lookup,
inbox status check, organization match, success construction), together with
the number of `getInbox` invocations performed from this point on. -/
def authScopeOnward (db : Database) (username : String) (apiKey : MockApiKey) :
    AuthResult × Nat :=
  -- STEP 6: check the smtp:send scope
  if !(apiKey.scopes.contains "smtp:send") then
    (.failure (createAuthError .INSUFFICIENT_PERMISSIONS
        ("API key lacks smtp:send scope. Has: " ++ String.intercalate ", " apiKey.scopes)), 0)
  else
    -- STEP 7: look up the inbox
    match db.getInbox username with
    | .error msg =>
        (.failure (createAuthError .DATABASE_ERROR
            ("Database error looking up inbox: " ++ msg)), 1)
    | .ok none =>
        (.failure (createAuthError .INBOX_NOT_FOUND ("Inbox not found: " ++ username)), 1)
    | .ok (some inbox) =>
        -- STEP 8: check the inbox status
        if inbox.status = .disabled then
          (.failure (createAuthError .INBOX_DISABLED ("Inbox is disabled: " ++ username)), 1)
        else if inbox.status = .suspended then
          (.failure (createAuthError .INBOX_SUSPENDED ("Inbox is suspended: " ++ username)), 1)
        else
          -- STEP 9: organization match
          if inbox.organization_id ≠ apiKey.organization_id then
            (.failure (createAuthError .INBOX_ORG_MISMATCH
                ("Inbox org (" ++ inbox.organization_id ++ ") != API key org (" ++
                 apiKey.organization_id ++ ")")), 1)
          else
            (.success ⟨inbox.inbox_id, inbox.organization_id, inbox.email_address,
                apiKey.api_key_id⟩, 1)

/-- Step 5 of `validateSMTPCredentials`: the expiry check
`apiKey.expires_at && new Date(apiKey.expires_at) < new Date()`, then the
remainder of the pipeline. -/
def authExpiryOnward (db : Database) (now : Nat) (username : String)
    (apiKey : MockApiKey) : AuthResult × Nat :=
  match apiKey.expires_at with
  | some t =>
      if t < now then
        (.failure (createAuthError .API_KEY_EXPIRED ("API key expired at " ++ toString t)), 0)
      else
        authScopeOnward db username apiKey
  | none => authScopeOnward db username apiKey

/-- Step 4 of `validateSMTPCredentials`: the revocation check
`if (apiKey.revoked_at)`, then the remainder of the pipeline. -/
def authRevokedOnward (db : Database) (now : Nat) (username : String)
    (apiKey : MockApiKey) : AuthResult × Nat :=
  match apiKey.revoked_at with
  | some t =>
      (.failure (createAuthError .API_KEY_REVOKED ("API key was revoked at " ++ toString t)), 0)
  | none => authExpiryOnward db now username apiKey

/-- `validateSMTPCredentials` of the validator module, instrumented with the
number of `getApiKey` and `getInbox` invocations (second and third
components). Steps 1 and 2 are the format guards (the `!username` /
`!password` falsiness guards cover the empty string); step 3 is the API key
lookup with its thrown-fault handler. -/
def validateSMTPCredentials (db : Database) (now : Nat)
    (username password : String) : AuthResult × Nat × Nat :=
  -- STEP 1: validate inbox_id format
  if username = "" then
    (.failure (createAuthError .INVALID_INBOX_ID_FORMAT
        "Empty or invalid username provided"), 0, 0)
  else if !(validateInboxIdFormat username) then
    (.failure (createAuthError .INVALID_INBOX_ID_FORMAT
        ("Invalid inbox_id format: " ++ username.take 20 ++ "...")), 0, 0)
  -- STEP 2: validate API key format
  else if password = "" then
    (.failure (createAuthError .INVALID_API_KEY_FORMAT
        "Empty or invalid password/API key provided"), 0, 0)
  else if !(validateApiKeyFormat password) then
    (.failure (createAuthError .INVALID_API_KEY_FORMAT
        ("Invalid API key format (length: " ++ toString password.length ++ ")")), 0, 0)
  else
    -- STEP 3: look up the API key
    match db.getApiKey password with
    | .error msg =>
        (.failure (createAuthError .DATABASE_ERROR
            ("Database error looking up API key: " ++ msg)), 1, 0)
    | .ok none =>
        (.failure (createAuthError .API_KEY_NOT_FOUND "API key not found in database"), 1, 0)
    | .ok (some apiKey) =>
        let r := authRevokedOnward db now username apiKey
        (r.1, 1, r.2)

-- ===========================================================================
-- src/session/session-state.ts : states, session data, transition tables
-- ===========================================================================

/-- The `SMTPSessionState` enum. -/
inductive SMTPSessionState
  | INIT
  | HELLO
  | AUTHENTICATED
  | MAIL_FROM
  | RCPT_TO
  | DATA
  | COMPLETED
deriving DecidableEq, Repr

/-- The `ConnectionMetadata` interface. -/
structure ConnectionMetadata where
  remoteAddress : String
  remotePort : Option Nat
  clientHostname : Option String
  tlsEnabled : Bool
deriving DecidableEq, Repr

/-- The `SessionUser` interface (the authenticated identity stored in the
session, including the raw API key used for downstream calls). -/
structure SessionUser where
  inbox_id : String
  organization_id : String
  email_address : String
  api_key_id : String
  api_key : String
deriving DecidableEq, Repr

/-- The `SessionRecipient` interface. -/
structure SessionRecipient where
  address : String
  addedAt : Nat
deriving DecidableEq, Repr

/-- The `StateTransition` history record; `from` is a Lean keyword, so the
fields are named `fromState` / `toState`. -/
structure StateTransition where
  fromState : SMTPSessionState
  toState : SMTPSessionState
  timestamp : Nat
  command : Option String
deriving DecidableEq, Repr

/-- The `SessionTimestamps` interface. -/
structure SessionTimestamps where
  createdAt : Nat
  lastActivityAt : Nat
  authenticatedAt : Option Nat
  mailFromAt : Option Nat
  dataStartedAt : Option Nat
  completedAt : Option Nat
deriving DecidableEq, Repr

/-- The `SMTPSession` interface. -/
structure SMTPSession where
  id : String
  state : SMTPSessionState
  timestamps : SessionTimestamps
  user : Option SessionUser
  authenticated : Bool
  mailFrom : Option String
  rcptTo : List SessionRecipient
  messageData : Option String
  messageId : Option String
  connection : ConnectionMetadata
  messageCount : Nat
  stateHistory : List StateTransition
deriving DecidableEq, Repr

/-- The `VALID_COMMANDS_BY_STATE` table. -/
def VALID_COMMANDS_BY_STATE : SMTPSessionState → List String
  | .INIT => ["EHLO", "HELO"]
  | .HELLO => ["AUTH", "MAIL", "QUIT"]
  | .AUTHENTICATED => ["MAIL", "QUIT"]
  | .MAIL_FROM => ["RCPT", "QUIT"]
  | .RCPT_TO => ["RCPT", "DATA", "QUIT"]
  | .DATA => []
  | .COMPLETED => ["MAIL", "QUIT"]

/-- A row of the `COMMAND_STATE_TRANSITIONS` table. -/
structure CommandTransition where
  fromStates : List SMTPSessionState
  toState : SMTPSessionState
deriving DecidableEq, Repr

/-- The `COMMAND_STATE_TRANSITIONS` table, keyed by the command string. -/
def COMMAND_STATE_TRANSITIONS : String → Option CommandTransition
  | "EHLO" => some ⟨[.INIT], .HELLO⟩
  | "HELO" => some ⟨[.INIT], .HELLO⟩
  | "AUTH" => some ⟨[.HELLO], .AUTHENTICATED⟩
  | "MAIL" => some ⟨[.HELLO, .AUTHENTICATED, .COMPLETED], .MAIL_FROM⟩
  | "RCPT" => some ⟨[.MAIL_FROM, .RCPT_TO], .RCPT_TO⟩
  | "DATA" => some ⟨[.RCPT_TO], .DATA⟩
  | "DATA_COMPLETE" => some ⟨[.DATA], .COMPLETED⟩
  | _ => none

/-- `SESSION_TIMEOUT_MS` (30 minutes). -/
def SESSION_TIMEOUT_MS : Nat := 30 * 60 * 1000

/-- `MAX_RECIPIENTS` (maximum recipients per message). -/
def MAX_RECIPIENTS : Nat := 50

/-- `CLEANUP_INTERVAL_MS` (5 minutes). -/
def CLEANUP_INTERVAL_MS : Nat := 5 * 60 * 1000

/-- `canExecuteCommandInState` of src/session/session-state.ts. -/
def canExecuteCommandInState (state : SMTPSessionState) (command : String) : Bool :=
  (VALID_COMMANDS_BY_STATE state).contains command

/-- `getNextState` of src/session/session-state.ts. -/
def getNextState (currentState : SMTPSessionState) (command : String) :
    Option SMTPSessionState :=
  match COMMAND_STATE_TRANSITIONS command with
  | none => none
  | some transition =>
      if transition.fromStates.contains currentState then some transition.toState
      else none

/-- `createEmptySession` of src/session/session-state.ts; `now` stands for the
single `new Date()` read. -/
def createEmptySession (sessionId : String) (connection : ConnectionMetadata)
    (now : Nat) : SMTPSession where
  id := sessionId
  state := .INIT
  timestamps := ⟨now, now, none, none, none, none⟩
  user := none
  authenticated := false
  mailFrom := none
  rcptTo := []
  messageData := none
  messageId := none
  connection := connection
  messageCount := 0
  stateHistory := []

-- ===========================================================================
-- Session manager (session-manager module) : per-session command handlers
-- ===========================================================================

/-!
The manager holds a map from session id to session and every handler begins by
looking its session up; the embedding works on the single session the handler
found (a handler on an absent session performs no mutation). Handlers that
return `null` in the source perform their checks before any mutation, so they
are modelled as `Option SMTPSession` with `none` leaving the session as it
was.
-/

/-- `SessionManager.transitionState`: append the transition to the history,
set the new state and refresh the activity timestamp. -/
def transitionState (now : Nat) (command : String) (newState : SMTPSessionState)
    (s : SMTPSession) : SMTPSession :=
  { s with
    state := newState
    stateHistory := s.stateHistory ++ [⟨s.state, newState, now, some command⟩]
    timestamps := { s.timestamps with lastActivityAt := now } }

/-- `SessionManager.handleHello`. -/
def handleHello (now : Nat) (clientHostname : Option String) (s : SMTPSession) :
    Option SMTPSession :=
  match getNextState s.state "EHLO" with
  | none => none
  | some nextState =>
      let s :=
        match clientHostname with
        | some h => { s with connection := { s.connection with clientHostname := some h } }
        | none => s
      some (transitionState now "EHLO" nextState s)

/-- `SessionManager.handleAuthentication`. -/
def handleAuthentication (now : Nat) (user : SessionUser) (s : SMTPSession) :
    Option SMTPSession :=
  match getNextState s.state "AUTH" with
  | none => none
  | some nextState =>
      some (transitionState now "AUTH" nextState
        { s with
          user := some user
          authenticated := true
          timestamps := { s.timestamps with authenticatedAt := some now } })

/-- `SessionManager.handleMailFrom`. -/
def handleMailFrom (now : Nat) (mailFrom : String) (s : SMTPSession) :
    Option SMTPSession :=
  match getNextState s.state "MAIL" with
  | none => none
  | some nextState =>
      some (transitionState now "MAIL" nextState
        { s with
          mailFrom := some mailFrom
          timestamps := { s.timestamps with mailFromAt := some now }
          rcptTo := []
          messageData := none
          messageId := none })

/-- `SessionManager.handleRcptTo`: the recipient-limit check precedes the
transition check; a transition event is pushed only when the state is not
already `RCPT_TO`. -/
def handleRcptTo (now : Nat) (recipient : String) (s : SMTPSession) :
    Option SMTPSession :=
  if MAX_RECIPIENTS ≤ s.rcptTo.length then none
  else
    match getNextState s.state "RCPT" with
    | none => none
    | some nextState =>
        let s' := { s with rcptTo := s.rcptTo ++ [⟨recipient, now⟩] }
        if s'.state ≠ .RCPT_TO then
          some (transitionState now "RCPT" nextState s')
        else
          some { s' with timestamps := { s'.timestamps with lastActivityAt := now } }

/-- `SessionManager.handleDataStart`. -/
def handleDataStart (now : Nat) (s : SMTPSession) : Option SMTPSession :=
  if s.rcptTo.length = 0 then none
  else
    match getNextState s.state "DATA" with
    | none => none
    | some nextState =>
        some (transitionState now "DATA" nextState
          { s with timestamps := { s.timestamps with dataStartedAt := some now } })

/-- `SessionManager.handleDataComplete`. -/
def handleDataComplete (now : Nat) (messageId : String) (s : SMTPSession) :
    Option SMTPSession :=
  match getNextState s.state "DATA_COMPLETE" with
  | none => none
  | some nextState =>
      some (transitionState now "DATA_COMPLETE" nextState
        { s with
          messageId := some messageId
          timestamps := { s.timestamps with completedAt := some now }
          messageCount := s.messageCount + 1 })

/-- `SessionManager.resetForNewMessage`: clear the transaction-scoped fields
and timestamps, refresh activity, return to `AUTHENTICATED` (or `HELLO` when
unauthenticated) and record a `RESET` history entry. -/
def resetForNewMessage (now : Nat) (s : SMTPSession) : SMTPSession :=
  let cleared :=
    { s with
      mailFrom := none
      rcptTo := []
      messageData := none
      messageId := none
      timestamps :=
        { s.timestamps with
          mailFromAt := none
          dataStartedAt := none
          completedAt := none
          lastActivityAt := now } }
  let newState : SMTPSessionState :=
    if cleared.authenticated then .AUTHENTICATED else .HELLO
  { cleared with
    state := newState
    stateHistory := cleared.stateHistory ++ [⟨cleared.state, newState, now, some "RESET"⟩] }

/-- `SessionManager.updateActivity`. -/
def updateActivity (now : Nat) (s : SMTPSession) : SMTPSession :=
  { s with timestamps := { s.timestamps with lastActivityAt := now } }

-- ===========================================================================
-- src/server.ts : command hooks (the outcome relayed to the remote peer)
-- ===========================================================================

/-- The outcome a hook passes to its callback: an accepted command or a
rejection carrying the mapped status, subcode and message. -/
inductive HookOutcome
  | accept (code : Nat) (enhancedCode : String) (message : String)
  | reject (code : Nat) (enhancedCode : String) (message : String)
deriving DecidableEq, Repr

/-- `onMailFrom` of src/server.ts, applied to the session the hook found: refresh
activity, require authentication, reset when coming from `COMPLETED`, check
legality, then delegate to `handleMailFrom`. -/
def onMailFrom (now : Nat) (address : String) (s : SMTPSession) :
    HookOutcome × SMTPSession :=
  let s := updateActivity now s
  if s.authenticated = false then
    (.reject 530 "5.7.0" "Authentication required", s)
  else
    let s := if s.state = .COMPLETED then resetForNewMessage now s else s
    if !(canExecuteCommandInState s.state "MAIL") then
      (.reject 503 "5.5.1" "Bad sequence of commands", s)
    else
      match handleMailFrom now address s with
      | none => (.reject 503 "5.5.1" "Bad sequence of commands", s)
      | some s' => (.accept 250 "2.1.0" "Sender OK", s')

/-- `onRcptTo` of src/server.ts: refresh activity, check legality, delegate to
`handleRcptTo`, and on a `null` result distinguish the recipient-limit case
(452) from the bad-sequence case (503) by re-checking the recipient count. -/
def onRcptTo (now : Nat) (address : String) (s : SMTPSession) :
    HookOutcome × SMTPSession :=
  let s := updateActivity now s
  if !(canExecuteCommandInState s.state "RCPT") then
    (.reject 503 "5.5.1" "Bad sequence of commands", s)
  else
    match handleRcptTo now address s with
    | none =>
        if 50 ≤ s.rcptTo.length then
          (.reject 452 "4.5.3" "Too many recipients", s)
        else
          (.reject 503 "5.5.1" "Bad sequence of commands", s)
    | some s' => (.accept 250 "2.1.5" "Recipient OK", s')

-- ===========================================================================
-- Sequences of session-manager operations (reachability)
-- ===========================================================================

/-- One session-manager operation, carrying its command payload. -/
inductive SMOp
  | hello (clientHostname : Option String)
  | auth (user : SessionUser)
  | mailFrom (address : String)
  | rcptTo (address : String)
  | dataStart
  | dataComplete (messageId : String)
  | reset
  | activity
deriving DecidableEq, Repr

/-- Apply one session-manager operation at clock time `now`; a handler that
returns `null` leaves the session unchanged. -/
def applySMOp (op : SMOp) (now : Nat) (s : SMTPSession) : SMTPSession :=
  match op with
  | .hello h => (handleHello now h s).getD s
  | .auth u => (handleAuthentication now u s).getD s
  | .mailFrom a => (handleMailFrom now a s).getD s
  | .rcptTo a => (handleRcptTo now a s).getD s
  | .dataStart => (handleDataStart now s).getD s
  | .dataComplete m => (handleDataComplete now m s).getD s
  | .reset => resetForNewMessage now s
  | .activity => updateActivity now s

/-- Run a sequence of timed session-manager operations. -/
def runOps (ops : List (SMOp × Nat)) (s : SMTPSession) : SMTPSession :=
  ops.foldl (fun s p => applySMOp p.1 p.2 s) s

-- ===========================================================================
-- src/errors/http-to-smtp-mapping.ts
-- ===========================================================================

/-- The `HTTPToSMTPMapping` interface. -/
structure HTTPToSMTPMapping where
  httpStatus : Nat
  smtpCode : Nat
  enhancedCode : String
  message : String
  retryable : Bool
  description : String
deriving DecidableEq, Repr

/-- The `SMTPErrorResult` interface. -/
structure SMTPErrorResult where
  smtpCode : Nat
  enhancedCode : String
  message : String
  retryable : Bool
deriving DecidableEq, Repr

/-- The `HTTP_TO_SMTP_MAPPINGS` table, keyed by HTTP status. -/
def HTTP_TO_SMTP_MAPPINGS : Nat → Option HTTPToSMTPMapping
  | 200 => some ⟨200, 250, "2.0.0", "Message accepted for delivery", false,
      "OK - Request successful"⟩
  | 201 => some ⟨201, 250, "2.0.0", "Message queued successfully", false,
      "Created - Resource created successfully"⟩
  | 400 => some ⟨400, 501, "5.5.2", "Invalid message format or parameters", false,
      "Bad Request - Malformed request syntax"⟩
  | 401 => some ⟨401, 535, "5.7.8", "Authentication credentials invalid", false,
      "Unauthorized - Authentication required or failed"⟩
  | 403 => some ⟨403, 550, "5.7.1", "Access denied", false,
      "Forbidden - Access denied to resource"⟩
  | 404 => some ⟨404, 550, "5.1.1", "Mailbox not found", false,
      "Not Found - Resource does not exist"⟩
  | 413 => some ⟨413, 552, "5.2.3", "Message size exceeds maximum allowed", false,
      "Payload Too Large - Message exceeds size limit"⟩
  | 422 => some ⟨422, 554, "5.6.0", "Message content rejected", false,
      "Unprocessable Entity - Semantic errors in content"⟩
  | 429 => some ⟨429, 450, "4.7.1", "Rate limit exceeded, try again later", true,
      "Too Many Requests - Rate limit exceeded"⟩
  | 500 => some ⟨500, 451, "4.3.0", "Temporary system error, please retry", true,
      "Internal Server Error - Unexpected server error"⟩
  | 502 => some ⟨502, 451, "4.4.1", "Upstream service unavailable, please retry", true,
      "Bad Gateway - Invalid response from upstream"⟩
  | 503 => some ⟨503, 421, "4.3.0", "Service temporarily unavailable", true,
      "Service Unavailable - Server overloaded or in maintenance"⟩
  | 504 => some ⟨504, 451, "4.4.1", "Gateway timeout, please retry", true,
      "Gateway Timeout - Upstream server timeout"⟩
  | _ => none

/-- `mapHttpToSmtp`: table lookup, then the range-based defaults. -/
def mapHttpToSmtp (httpStatus : Nat) : SMTPErrorResult :=
  match HTTP_TO_SMTP_MAPPINGS httpStatus with
  | some mapping => ⟨mapping.smtpCode, mapping.enhancedCode, mapping.message, mapping.retryable⟩
  | none =>
      if 200 ≤ httpStatus ∧ httpStatus < 300 then
        ⟨250, "2.0.0", "Message accepted", false⟩
      else if 400 ≤ httpStatus ∧ httpStatus < 500 then
        ⟨550, "5.0.0", "Request rejected", false⟩
      else
        ⟨451, "4.3.0", "Temporary failure, please retry", true⟩

/-- `isRetryableHttpStatus`: the explicit mapping when present, otherwise
`httpStatus === 429 || httpStatus >= 500`. -/
def isRetryableHttpStatus (httpStatus : Nat) : Bool :=
  match HTTP_TO_SMTP_MAPPINGS httpStatus with
  | some mapping => mapping.retryable
  | none => httpStatus == 429 || 500 ≤ httpStatus

-- ===========================================================================
-- Concrete sample data used by witnesses and counterexamples
-- ===========================================================================

/-- Connection metadata of a demo client. -/
def sampleConn : ConnectionMetadata := ⟨"127.0.0.1", some 52525, none, false⟩

/-- The authenticated session user of the success scenario. -/
def sampleSessionUser : SessionUser :=
  ⟨"inb_valid1234567890", "org_abc", "test@agentmail.dev", "key_valid_1",
   "am_validkey12345678901234567890123456"⟩

/-- The valid API key record of the mock database success scenario. -/
def sampleApiKey : MockApiKey :=
  ⟨"key_valid_1", "org_abc", none, none,
   ["smtp:send", "messages:read", "messages:write"], "Production API Key", 0⟩

/-- A database whose key lookup throws. -/
def sampleDbFault : Database :=
  ⟨fun _ => .error "connection timeout", fun _ => .error "connection timeout"⟩

/-- A database with no records. -/
def sampleDbMiss : Database := ⟨fun _ => .ok none, fun _ => .ok none⟩

/-- A database that returns the given API key record and no inbox. -/
def sampleDbWithKey (k : MockApiKey) : Database :=
  ⟨fun _ => .ok (some k), fun _ => .ok none⟩

/-- An authenticated session sitting in the `RCPT_TO` state. -/
def rcptStateSession : SMTPSession where
  id := "s-rcpt"
  state := .RCPT_TO
  timestamps := ⟨0, 0, some 0, some 0, none, none⟩
  user := some sampleSessionUser
  authenticated := true
  mailFrom := some "test@agentmail.dev"
  rcptTo := [⟨"to@example.com", 0⟩]
  messageData := none
  messageId := none
  connection := sampleConn
  messageCount := 0
  stateHistory := []

/-- An authenticated session sitting in the `HELLO` state. -/
def helloStateSession : SMTPSession where
  id := "s-hello"
  state := .HELLO
  timestamps := ⟨0, 0, none, none, none, none⟩
  user := none
  authenticated := false
  mailFrom := none
  rcptTo := []
  messageData := none
  messageId := none
  connection := sampleConn
  messageCount := 0
  stateHistory := []

/-- An authenticated session that has completed a transaction. -/
def completedStateSession : SMTPSession where
  id := "s-done"
  state := .COMPLETED
  timestamps := ⟨0, 3, some 1, some 2, some 2, some 3⟩
  user := some sampleSessionUser
  authenticated := true
  mailFrom := some "test@agentmail.dev"
  rcptTo := [⟨"to@example.com", 2⟩]
  messageData := none
  messageId := some "msg-1"
  connection := sampleConn
  messageCount := 1
  stateHistory := []

/-- A session already holding `MAX_RECIPIENTS` (50) recipients. -/
def fullRcptSession : SMTPSession :=
  { rcptStateSession with rcptTo := List.replicate 50 ⟨"to@example.com", 0⟩ }

/-- The timestamps of a session's state-transition history, in order. -/
def histTimes (s : SMTPSession) : List Nat :=
  s.stateHistory.map StateTransition.timestamp

/-- Invariant carried along operation sequences: the history timestamps are
strictly increasing and all of them are at most the last-activity time. -/
def HistInv (s : SMTPSession) : Prop :=
  List.Pairwise (· < ·) (histTimes s) ∧
  ∀ t ∈ histTimes s, t ≤ s.timestamps.lastActivityAt

-- ===========================================================================
-- C1 : uniformity of the credential/principal/organization error bucket
-- ===========================================================================

/-- C1: the claim states that every credential/principal/organization failure
reason other than `INSUFFICIENT_PERMISSIONS` (and the transient system
reasons) maps to status 535, subcode 5.7.8 and the one shared client message
"Authentication credentials invalid". Evaluating `AUTH_ERRORS` shows the
claim holds for eight of the nine bucket members but fails at
`INBOX_SUSPENDED`, whose client message is the distinct
"Account suspended - contact support" even though the taxonomy file's own
header states that all auth failures return the same generic message. -/
theorem AUTH_ERRORS_bucket_not_uniform_at_suspended :
    (AUTH_ERRORS .INBOX_SUSPENDED).smtpCode = 535 ∧
    (AUTH_ERRORS .INBOX_SUSPENDED).enhancedCode = "5.7.8" ∧
    (AUTH_ERRORS .INBOX_SUSPENDED).message = "Account suspended - contact support" ∧
    (AUTH_ERRORS .INBOX_SUSPENDED).message ≠ "Authentication credentials invalid" ∧
    ([.INVALID_API_KEY_FORMAT, .API_KEY_NOT_FOUND, .API_KEY_REVOKED,
      .API_KEY_EXPIRED, .INVALID_INBOX_ID_FORMAT, .INBOX_NOT_FOUND,
      .INBOX_DISABLED, .INBOX_ORG_MISMATCH] : List AuthErrorCode).all
      (fun c => AUTH_ERRORS c =
        ⟨c, 535, "5.7.8", "Authentication credentials invalid"⟩) = true := by
  decide

-- ===========================================================================
-- C10 : HTTP-to-SMTP status family mapping
-- ===========================================================================

/-- `HTTP_TO_SMTP_MAPPINGS` has no entry at or above 600. -/
theorem HTTP_TO_SMTP_MAPPINGS_none_of_ge_600 (h : Nat) (hh : 600 ≤ h) :
    HTTP_TO_SMTP_MAPPINGS h = none := by
  unfold HTTP_TO_SMTP_MAPPINGS
  split <;> first | rfl | omega

set_option maxRecDepth 100000 in
/-- C10: every HTTP status in [400, 500) other than 429 maps to a permanent
5xx SMTP code with retryable = false; every HTTP status at or above 500 maps
to a temporary 4xx SMTP code with retryable = true; 429 maps to 450
retryable; and on those ranges `isRetryableHttpStatus` agrees with the
`retryable` flag of `mapHttpToSmtp`. -/
theorem mapHttpToSmtp_families (h : Nat) :
    (400 ≤ h → h < 500 → h ≠ 429 →
      500 ≤ (mapHttpToSmtp h).smtpCode ∧ (mapHttpToSmtp h).smtpCode ≤ 599 ∧
      (mapHttpToSmtp h).retryable = false) ∧
    (500 ≤ h →
      400 ≤ (mapHttpToSmtp h).smtpCode ∧ (mapHttpToSmtp h).smtpCode ≤ 499 ∧
      (mapHttpToSmtp h).retryable = true) ∧
    mapHttpToSmtp 429 = ⟨450, "4.7.1", "Rate limit exceeded, try again later", true⟩ ∧
    (400 ≤ h → isRetryableHttpStatus h = (mapHttpToSmtp h).retryable) := by
  by_cases hb : h < 600
  · have all1 : ∀ x < 600, 400 ≤ x → x < 500 → x ≠ 429 →
        500 ≤ (mapHttpToSmtp x).smtpCode ∧ (mapHttpToSmtp x).smtpCode ≤ 599 ∧
        (mapHttpToSmtp x).retryable = false := by decide
    have all2 : ∀ x < 600, 500 ≤ x →
        400 ≤ (mapHttpToSmtp x).smtpCode ∧ (mapHttpToSmtp x).smtpCode ≤ 499 ∧
        (mapHttpToSmtp x).retryable = true := by decide
    have all3 : ∀ x < 600, 400 ≤ x →
        isRetryableHttpStatus x = (mapHttpToSmtp x).retryable := by decide
    exact ⟨all1 h hb, all2 h hb, by decide, all3 h hb⟩
  · have h600 : 600 ≤ h := Nat.le_of_not_lt hb
    have hmap : HTTP_TO_SMTP_MAPPINGS h = none := HTTP_TO_SMTP_MAPPINGS_none_of_ge_600 h h600
    have hval : mapHttpToSmtp h = ⟨451, "4.3.0", "Temporary failure, please retry", true⟩ := by
      unfold mapHttpToSmtp
      rw [hmap]
      have h1 : ¬ (200 ≤ h ∧ h < 300) := by omega
      have h2 : ¬ (400 ≤ h ∧ h < 500) := by omega
      rw [if_neg h1, if_neg h2]
    have hretry : isRetryableHttpStatus h = true := by
      unfold isRetryableHttpStatus
      rw [hmap]
      simp only [Bool.or_eq_true, decide_eq_true_eq, beq_iff_eq]
      right
      omega
    refine ⟨fun _ hlt _ => absurd hlt (by omega), fun _ => ?_, by decide, fun _ => ?_⟩
    · rw [hval]
      exact ⟨by norm_num, by norm_num, rfl⟩
    · rw [hval, hretry]

-- ===========================================================================
-- C2 : malformed credentials short-circuit before any lookup
-- ===========================================================================

/-- C2: whenever the username fails the inbox-id format check or the password
fails the API-key format check, `validateSMTPCredentials` returns one of the
format-invalid failures and performs zero `getApiKey` and zero `getInbox`
invocations. -/
theorem validateSMTPCredentials_format_short_circuit (db : Database) (now : Nat)
    (username password : String)
    (h : validateInboxIdFormat username = false ∨ validateApiKeyFormat password = false) :
    validateSMTPCredentials db now username password =
      (.failure (createAuthError .INVALID_INBOX_ID_FORMAT
        "Empty or invalid username provided"), 0, 0) ∨
    validateSMTPCredentials db now username password =
      (.failure (createAuthError .INVALID_INBOX_ID_FORMAT
        ("Invalid inbox_id format: " ++ username.take 20 ++ "...")), 0, 0) ∨
    validateSMTPCredentials db now username password =
      (.failure (createAuthError .INVALID_API_KEY_FORMAT
        "Empty or invalid password/API key provided"), 0, 0) ∨
    validateSMTPCredentials db now username password =
      (.failure (createAuthError .INVALID_API_KEY_FORMAT
        ("Invalid API key format (length: " ++ toString password.length ++ ")")), 0, 0) := by
  unfold validateSMTPCredentials
  by_cases h1 : username = ""
  · simp [h1]
  · by_cases h2 : validateInboxIdFormat username = true
    · by_cases h3 : password = ""
      · simp [h1, h2, h3]
      · have h4 : validateApiKeyFormat password = false := by
          rcases h with h | h
          · rw [h] at h2; cases h2
          · exact h
        simp [h1, h2, h3, h4]
    · have h2f : validateInboxIdFormat username = false := by
        cases hv : validateInboxIdFormat username
        · rfl
        · exact absurd hv h2
      simp [h1, h2f]

/-- Witness for C2 at a concrete malformed username. -/
theorem validateSMTPCredentials_format_short_circuit_witness :
    validateSMTPCredentials sampleDbMiss 0 "bad"
        "am_validkey12345678901234567890123456" =
      (.failure (createAuthError .INVALID_INBOX_ID_FORMAT
        "Empty or invalid username provided"), 0, 0) ∨
    validateSMTPCredentials sampleDbMiss 0 "bad"
        "am_validkey12345678901234567890123456" =
      (.failure (createAuthError .INVALID_INBOX_ID_FORMAT
        ("Invalid inbox_id format: " ++ String.take "bad" 20 ++ "...")), 0, 0) ∨
    validateSMTPCredentials sampleDbMiss 0 "bad"
        "am_validkey12345678901234567890123456" =
      (.failure (createAuthError .INVALID_API_KEY_FORMAT
        "Empty or invalid password/API key provided"), 0, 0) ∨
    validateSMTPCredentials sampleDbMiss 0 "bad"
        "am_validkey12345678901234567890123456" =
      (.failure (createAuthError .INVALID_API_KEY_FORMAT
        ("Invalid API key format (length: " ++
          toString (String.length "am_validkey12345678901234567890123456") ++ ")")), 0, 0) :=
  validateSMTPCredentials_format_short_circuit sampleDbMiss 0 "bad"
    "am_validkey12345678901234567890123456" (Or.inl (by decide))

-- ===========================================================================
-- C6 : lookup fault versus lookup miss are never conflated
-- ===========================================================================

/-- C6: for well-formed credentials, a thrown key-lookup fault yields the
`DATABASE_ERROR` failure, whose taxonomy entry is the temporary family
454 / 4.7.0, while an absent key yields `API_KEY_NOT_FOUND`, whose taxonomy
entry is the permanent family 535 / 5.7.8; the two statuses differ. -/
theorem validateSMTPCredentials_fault_vs_missing (db : Database) (now : Nat)
    (username password : String)
    (hu : validateInboxIdFormat username = true)
    (hp : validateApiKeyFormat password = true) :
    (∀ msg, db.getApiKey password = .error msg →
      validateSMTPCredentials db now username password =
        (.failure (createAuthError .DATABASE_ERROR
            ("Database error looking up API key: " ++ msg)), 1, 0)) ∧
    (db.getApiKey password = .ok none →
      validateSMTPCredentials db now username password =
        (.failure (createAuthError .API_KEY_NOT_FOUND
            "API key not found in database"), 1, 0)) ∧
    AUTH_ERRORS .DATABASE_ERROR =
      ⟨.DATABASE_ERROR, 454, "4.7.0", "Temporary authentication failure, please retry"⟩ ∧
    AUTH_ERRORS .API_KEY_NOT_FOUND =
      ⟨.API_KEY_NOT_FOUND, 535, "5.7.8", "Authentication credentials invalid"⟩ ∧
    (454 : Nat) ≠ 535 := by
  have hne1 : ¬ username = "" := by
    intro e; rw [e] at hu; exact absurd hu (by decide)
  have hne2 : ¬ password = "" := by
    intro e; rw [e] at hp; exact absurd hp (by decide)
  refine ⟨?_, ?_, by decide, by decide, by decide⟩
  · intro msg hmsg
    simp [validateSMTPCredentials, hne1, hne2, hu, hp, hmsg]
  · intro hnone
    simp [validateSMTPCredentials, hne1, hne2, hu, hp, hnone]

/-- Witness for C6: a throwing database and an empty database, at the demo
credentials. -/
theorem validateSMTPCredentials_fault_vs_missing_witness :
    validateSMTPCredentials sampleDbFault 0 "inb_valid1234567890"
        "am_validkey12345678901234567890123456" =
      (.failure (createAuthError .DATABASE_ERROR
          ("Database error looking up API key: " ++ "connection timeout")), 1, 0) ∧
    validateSMTPCredentials sampleDbMiss 0 "inb_valid1234567890"
        "am_validkey12345678901234567890123456" =
      (.failure (createAuthError .API_KEY_NOT_FOUND
          "API key not found in database"), 1, 0) :=
  ⟨(validateSMTPCredentials_fault_vs_missing sampleDbFault 0 "inb_valid1234567890"
      "am_validkey12345678901234567890123456" (by decide) (by decide)).1
      "connection timeout" rfl,
   (validateSMTPCredentials_fault_vs_missing sampleDbMiss 0 "inb_valid1234567890"
      "am_validkey12345678901234567890123456" (by decide) (by decide)).2.1 rfl⟩

-- ===========================================================================
-- C7 : the expiry step
-- ===========================================================================

/-- C7: for a well-formed, found and unrevoked credential record, an expiry
timestamp strictly before the evaluation time fails the pipeline with
`API_KEY_EXPIRED`; an absent or not-yet-past expiry passes the step and the
pipeline continues with the scope check (steps 6 onward). -/
theorem validateSMTPCredentials_expiry_step (db : Database) (now : Nat)
    (username password : String) (apiKey : MockApiKey)
    (hu : validateInboxIdFormat username = true)
    (hp : validateApiKeyFormat password = true)
    (hk : db.getApiKey password = .ok (some apiKey))
    (hrev : apiKey.revoked_at = none) :
    (∀ t, apiKey.expires_at = some t → t < now →
      validateSMTPCredentials db now username password =
        (.failure (createAuthError .API_KEY_EXPIRED
            ("API key expired at " ++ toString t)), 1, 0)) ∧
    ((∀ t, apiKey.expires_at = some t → now ≤ t) →
      validateSMTPCredentials db now username password =
        ((authScopeOnward db username apiKey).1, 1,
         (authScopeOnward db username apiKey).2)) := by
  have hne1 : ¬ username = "" := by
    intro e; rw [e] at hu; exact absurd hu (by decide)
  have hne2 : ¬ password = "" := by
    intro e; rw [e] at hp; exact absurd hp (by decide)
  constructor
  · intro t ht hlt
    simp [validateSMTPCredentials, authRevokedOnward, authExpiryOnward,
      hne1, hne2, hu, hp, hk, hrev, ht, hlt]
  · intro hfut
    cases he : apiKey.expires_at with
    | none =>
        simp [validateSMTPCredentials, authRevokedOnward, authExpiryOnward,
          hne1, hne2, hu, hp, hk, hrev, he]
    | some t =>
        have hnl : ¬ t < now := Nat.not_lt.mpr (hfut t he)
        simp [validateSMTPCredentials, authRevokedOnward, authExpiryOnward,
          hne1, hne2, hu, hp, hk, hrev, he, hnl]

/-- Witness for C7: a key whose expiry 5 lies strictly before evaluation
time 10. -/
theorem validateSMTPCredentials_expiry_step_witness :
    validateSMTPCredentials (sampleDbWithKey { sampleApiKey with expires_at := some 5 })
        10 "inb_valid1234567890" "am_validkey12345678901234567890123456" =
      (.failure (createAuthError .API_KEY_EXPIRED
          ("API key expired at " ++ toString 5)), 1, 0) :=
  (validateSMTPCredentials_expiry_step
      (sampleDbWithKey { sampleApiKey with expires_at := some 5 }) 10
      "inb_valid1234567890" "am_validkey12345678901234567890123456"
      { sampleApiKey with expires_at := some 5 }
      (by decide) (by decide) rfl rfl).1 5 rfl (by decide)

-- ===========================================================================
-- C10 witness
-- ===========================================================================

/-- Witness for C10 at the statuses 403 and 503. -/
theorem mapHttpToSmtp_families_witness :
    (500 ≤ (mapHttpToSmtp 403).smtpCode ∧ (mapHttpToSmtp 403).smtpCode ≤ 599 ∧
      (mapHttpToSmtp 403).retryable = false) ∧
    (400 ≤ (mapHttpToSmtp 503).smtpCode ∧ (mapHttpToSmtp 503).smtpCode ≤ 499 ∧
      (mapHttpToSmtp 503).retryable = true) ∧
    isRetryableHttpStatus 403 = (mapHttpToSmtp 403).retryable :=
  ⟨(mapHttpToSmtp_families 403).1 (by decide) (by decide) (by decide),
   (mapHttpToSmtp_families 503).2.1 (by decide),
   (mapHttpToSmtp_families 403).2.2.2 (by decide)⟩

-- ===========================================================================
-- C3 : rejection of an out-of-sequence command
-- ===========================================================================

/-- C3 (amended): an out-of-sequence sender command on an authenticated
session, and an out-of-sequence recipient command on any session, are
rejected with the sequencing response 503 / 5.5.1, and the session after the
rejection equals the session before the command except that the last-activity
timestamp has been refreshed to the command time (`updateActivity`). -/
theorem hooks_illegal_command_reject (s : SMTPSession) (now : Nat) (address : String) :
    (s.authenticated = true → canExecuteCommandInState s.state "MAIL" = false →
      onMailFrom now address s =
        (.reject 503 "5.5.1" "Bad sequence of commands", updateActivity now s)) ∧
    (canExecuteCommandInState s.state "RCPT" = false →
      onRcptTo now address s =
        (.reject 503 "5.5.1" "Bad sequence of commands", updateActivity now s)) := by
  constructor
  · intro hauth hcan
    have hnc : s.state ≠ SMTPSessionState.COMPLETED := by
      intro e; rw [e] at hcan; exact absurd hcan (by decide)
    simp [onMailFrom, updateActivity, hauth, hnc, hcan]
  · intro hcan
    simp [onRcptTo, updateActivity, hcan]

/-- Counterexample for C3 as stated: a sender command on a session in the
`RCPT_TO` state is rejected with the sequencing response, but the session
after the rejection differs from the session before the command (its
last-activity timestamp moved from 0 to 5). -/
theorem onMailFrom_rejection_changes_last_activity :
    (onMailFrom 5 "new@example.com" rcptStateSession).1 =
      .reject 503 "5.5.1" "Bad sequence of commands" ∧
    (onMailFrom 5 "new@example.com" rcptStateSession).2 ≠ rcptStateSession := by
  decide

/-- Witness for C3 (amended) at concrete sessions in the `RCPT_TO` and
`HELLO` states. -/
theorem hooks_illegal_command_reject_witness :
    onMailFrom 5 "new@example.com" rcptStateSession =
      (.reject 503 "5.5.1" "Bad sequence of commands",
       updateActivity 5 rcptStateSession) ∧
    onRcptTo 5 "new@example.com" helloStateSession =
      (.reject 503 "5.5.1" "Bad sequence of commands",
       updateActivity 5 helloStateSession) :=
  ⟨(hooks_illegal_command_reject rcptStateSession 5 "new@example.com").1
      (by decide) (by decide),
   (hooks_illegal_command_reject helloStateSession 5 "new@example.com").2
      (by decide)⟩

-- ===========================================================================
-- C4 : recipient append without transition, and the recipient limit
-- ===========================================================================


/-- C4: in the `RCPT_TO` state a further recipient command below the limit
appends the recipient, leaves the state at `RCPT_TO` and pushes no
state-transition event (only the activity timestamp moves); at the limit the
command is rejected with the recipient-limit response 452 / 4.5.3, which is
distinct from the illegal-transition response 503 / 5.5.1. -/
theorem onRcptTo_append_and_limit (s : SMTPSession) (now : Nat) (address : String)
    (hstate : s.state = .RCPT_TO) :
    (s.rcptTo.length < MAX_RECIPIENTS →
      onRcptTo now address s =
        (.accept 250 "2.1.5" "Recipient OK",
         { s with
           rcptTo := s.rcptTo ++ [⟨address, now⟩]
           timestamps := { s.timestamps with lastActivityAt := now } })) ∧
    (MAX_RECIPIENTS ≤ s.rcptTo.length →
      onRcptTo now address s =
        (.reject 452 "4.5.3" "Too many recipients", updateActivity now s)) ∧
    HookOutcome.reject 452 "4.5.3" "Too many recipients" ≠
      HookOutcome.reject 503 "5.5.1" "Bad sequence of commands" := by
  obtain ⟨sid, sst, sts, su, sa, smf, srt, smd, smid, sc, smc, sh⟩ := s
  simp only at hstate
  subst hstate
  refine ⟨?_, ?_, by decide⟩
  · intro hlen
    have h1 : ¬ MAX_RECIPIENTS ≤ srt.length := Nat.not_le.mpr hlen
    simp only [MAX_RECIPIENTS] at h1
    simp [onRcptTo, handleRcptTo, updateActivity, MAX_RECIPIENTS, h1,
      canExecuteCommandInState, VALID_COMMANDS_BY_STATE, getNextState,
      COMMAND_STATE_TRANSITIONS]
  · intro hlen
    simp only [MAX_RECIPIENTS] at hlen
    simp [onRcptTo, handleRcptTo, updateActivity, MAX_RECIPIENTS, hlen,
      canExecuteCommandInState, VALID_COMMANDS_BY_STATE]

/-- Witness for C4: appending a second recipient to a one-recipient session,
and the rejection at a session already holding 50 recipients. -/
theorem onRcptTo_append_and_limit_witness :
    onRcptTo 5 "second@example.com" rcptStateSession =
      (.accept 250 "2.1.5" "Recipient OK",
       { rcptStateSession with
         rcptTo := rcptStateSession.rcptTo ++ [⟨"second@example.com", 5⟩]
         timestamps := { rcptStateSession.timestamps with lastActivityAt := 5 } }) ∧
    onRcptTo 5 "extra@example.com" fullRcptSession =
      (.reject 452 "4.5.3" "Too many recipients", updateActivity 5 fullRcptSession) :=
  ⟨(onRcptTo_append_and_limit rcptStateSession 5 "second@example.com" rfl).1
      (by decide),
   (onRcptTo_append_and_limit fullRcptSession 5 "extra@example.com" rfl).2.1
      (by decide)⟩

-- ===========================================================================
-- C5 : new sender command after a completed transaction
-- ===========================================================================

/-- C5 (amended): a sender command on an authenticated `COMPLETED` session is
accepted and produces the `MAIL_FROM` state with the recipient list emptied,
the message data and message id cleared, the data-started and completed
timestamps cleared, and the sender-set timestamp set to the command time
(not cleared), while the user, authenticated flag, connection metadata,
created and authenticated timestamps and the message counter are unchanged;
the history gains the `RESET` and `MAIL` transition entries. -/
theorem onMailFrom_completed_new_transaction (s : SMTPSession) (now : Nat)
    (address : String) (hstate : s.state = .COMPLETED)
    (hauth : s.authenticated = true) :
    onMailFrom now address s =
      (.accept 250 "2.1.0" "Sender OK",
       { s with
         state := .MAIL_FROM
         mailFrom := some address
         rcptTo := []
         messageData := none
         messageId := none
         timestamps :=
           { s.timestamps with
             lastActivityAt := now
             mailFromAt := some now
             dataStartedAt := none
             completedAt := none }
         stateHistory := s.stateHistory ++
           [⟨.COMPLETED, .AUTHENTICATED, now, some "RESET"⟩,
            ⟨.AUTHENTICATED, .MAIL_FROM, now, some "MAIL"⟩] }) := by
  obtain ⟨sid, sst, sts, su, sa, smf, srt, smd, smid, sc, smc, sh⟩ := s
  simp only at hstate hauth
  subst hstate
  subst hauth
  simp [onMailFrom, updateActivity, resetForNewMessage, handleMailFrom,
    transitionState, canExecuteCommandInState, VALID_COMMANDS_BY_STATE,
    getNextState, COMMAND_STATE_TRANSITIONS]

/-- Counterexample for C5 as stated: after the new sender command the
sender-set transaction timestamp is not cleared but set to the time of the
command. -/
theorem onMailFrom_completed_sets_mailFromAt :
    (onMailFrom 10 "sender@example.com" completedStateSession).2.timestamps.mailFromAt
      = some 10 ∧ (some 10 : Option Nat) ≠ none := by decide

/-- Witness for C5 (amended) at a concrete completed session. -/
theorem onMailFrom_completed_new_transaction_witness :
    onMailFrom 10 "sender@example.com" completedStateSession =
      (.accept 250 "2.1.0" "Sender OK",
       { completedStateSession with
         state := .MAIL_FROM
         mailFrom := some "sender@example.com"
         rcptTo := []
         messageData := none
         messageId := none
         timestamps :=
           { completedStateSession.timestamps with
             lastActivityAt := 10
             mailFromAt := some 10
             dataStartedAt := none
             completedAt := none }
         stateHistory := completedStateSession.stateHistory ++
           [⟨.COMPLETED, .AUTHENTICATED, 10, some "RESET"⟩,
            ⟨.AUTHENTICATED, .MAIL_FROM, 10, some "MAIL"⟩] }) :=
  onMailFrom_completed_new_transaction completedStateSession 10
    "sender@example.com" (by decide) (by decide)

-- ===========================================================================
-- C8 : authenticated flag agrees with user presence on reachable sessions
-- ===========================================================================

/-- Every single session-manager operation preserves the agreement between
the authenticated flag and the presence of the session user. -/
theorem applySMOp_auth (op : SMOp) (now : Nat) (s : SMTPSession)
    (h : s.authenticated = s.user.isSome) :
    (applySMOp op now s).authenticated = (applySMOp op now s).user.isSome := by
  cases op with
  | hello ch =>
      cases hg : getNextState s.state "EHLO" with
      | none => simpa [applySMOp, handleHello, hg] using h
      | some ns => cases ch <;> simp [applySMOp, handleHello, hg, transitionState, h]
  | auth u =>
      cases hg : getNextState s.state "AUTH" with
      | none => simpa [applySMOp, handleAuthentication, hg] using h
      | some ns => simp [applySMOp, handleAuthentication, hg, transitionState]
  | mailFrom a =>
      cases hg : getNextState s.state "MAIL" with
      | none => simpa [applySMOp, handleMailFrom, hg] using h
      | some ns => simp [applySMOp, handleMailFrom, hg, transitionState, h]
  | rcptTo a =>
      by_cases hl : MAX_RECIPIENTS ≤ s.rcptTo.length
      · simpa [applySMOp, handleRcptTo, hl] using h
      · cases hg : getNextState s.state "RCPT" with
        | none => simpa [applySMOp, handleRcptTo, hl, hg] using h
        | some ns =>
            by_cases hs : s.state = SMTPSessionState.RCPT_TO
            · have hg2 : getNextState SMTPSessionState.RCPT_TO "RCPT" =
                  some SMTPSessionState.RCPT_TO := by decide
              simp [applySMOp, handleRcptTo, hl, hg2, hs, transitionState, h]
            · simp [applySMOp, handleRcptTo, hl, hg, hs, transitionState, h]
  | dataStart =>
      by_cases hr : s.rcptTo.length = 0
      · simpa [applySMOp, handleDataStart, hr] using h
      · cases hg : getNextState s.state "DATA" with
        | none => simpa [applySMOp, handleDataStart, hr, hg] using h
        | some ns => simp [applySMOp, handleDataStart, hr, hg, transitionState, h]
  | dataComplete m =>
      cases hg : getNextState s.state "DATA_COMPLETE" with
      | none => simpa [applySMOp, handleDataComplete, hg] using h
      | some ns => simp [applySMOp, handleDataComplete, hg, transitionState, h]
  | reset => simpa [applySMOp, resetForNewMessage] using h
  | activity => simpa [applySMOp, updateActivity] using h

/-- The agreement is preserved along any operation sequence. -/
theorem runOps_auth (ops : List (SMOp × Nat)) :
    ∀ s : SMTPSession, s.authenticated = s.user.isSome →
      (runOps ops s).authenticated = (runOps ops s).user.isSome := by
  induction ops with
  | nil => intro s h; exact h
  | cons p rest ih => intro s h; exact ih _ (applySMOp_auth p.1 p.2 s h)

/-- C8: on every session reachable from `createEmptySession` by any sequence
of timed session-manager operations, the authenticated flag is true exactly
when the authenticated identity is present. -/
theorem session_authenticated_iff_user (sessionId : String)
    (conn : ConnectionMetadata) (t0 : Nat) (ops : List (SMOp × Nat)) :
    (runOps ops (createEmptySession sessionId conn t0)).authenticated =
      (runOps ops (createEmptySession sessionId conn t0)).user.isSome :=
  runOps_auth ops _ (by simp [createEmptySession])

-- ===========================================================================
-- C9 : monotonicity of the state-transition history
-- ===========================================================================


/-- Appending a strictly later element keeps a strictly increasing list
strictly increasing. -/
theorem pairwise_snoc {l : List Nat} {bound t : Nat}
    (hp : List.Pairwise (· < ·) l) (hb : ∀ x ∈ l, x ≤ bound) (hlt : bound < t) :
    List.Pairwise (· < ·) (l ++ [t]) := by
  rw [List.pairwise_append]
  refine ⟨hp, List.pairwise_singleton _ _, ?_⟩
  intro a ha b hb'
  rw [List.mem_singleton] at hb'
  subst hb'
  exact lt_of_le_of_lt (hb a ha) hlt

/-- An operation that appends one history entry stamped `now` and moves the
activity time to `now` preserves the invariant. -/
theorem histInv_extend {s : SMTPSession} {now : Nat} (snew : SMTPSession)
    (hp : List.Pairwise (· < ·) (histTimes s))
    (hb : ∀ t ∈ histTimes s, t ≤ s.timestamps.lastActivityAt)
    (hlt : s.timestamps.lastActivityAt < now)
    (hh : histTimes snew = histTimes s ++ [now])
    (hla : snew.timestamps.lastActivityAt = now) :
    HistInv snew ∧ snew.timestamps.lastActivityAt ≤ now := by
  refine ⟨⟨?_, ?_⟩, le_of_eq hla⟩
  · rw [hh]; exact pairwise_snoc hp hb hlt
  · rw [hh, hla]
    intro t ht
    rcases List.mem_append.mp ht with h1 | h1
    · exact le_of_lt (lt_of_le_of_lt (hb t h1) hlt)
    · rw [List.mem_singleton] at h1; exact le_of_eq h1

/-- An operation that leaves the history untouched and either keeps or
refreshes the activity time preserves the invariant. -/
theorem histInv_keep {s : SMTPSession} {now : Nat} (snew : SMTPSession)
    (hp : List.Pairwise (· < ·) (histTimes s))
    (hb : ∀ t ∈ histTimes s, t ≤ s.timestamps.lastActivityAt)
    (hle : s.timestamps.lastActivityAt ≤ now)
    (hh : histTimes snew = histTimes s)
    (hla : snew.timestamps.lastActivityAt = s.timestamps.lastActivityAt ∨
           snew.timestamps.lastActivityAt = now) :
    HistInv snew ∧ snew.timestamps.lastActivityAt ≤ now := by
  refine ⟨⟨by rw [hh]; exact hp, ?_⟩, ?_⟩
  · intro t ht
    rw [hh] at ht
    rcases hla with e | e
    · rw [e]; exact hb t ht
    · rw [e]; exact le_trans (hb t ht) hle
  · rcases hla with e | e
    · rw [e]; exact hle
    · rw [e]

/-- One operation at a strictly later clock time preserves the history
invariant and leaves the activity time at most that clock time. -/
theorem applySMOp_hist (op : SMOp) (now : Nat) (s : SMTPSession)
    (h : HistInv s) (hlt : s.timestamps.lastActivityAt < now) :
    HistInv (applySMOp op now s) ∧
    (applySMOp op now s).timestamps.lastActivityAt ≤ now := by
  obtain ⟨hp, hb⟩ := h
  have hle : s.timestamps.lastActivityAt ≤ now := le_of_lt hlt
  cases op with
  | hello ch =>
      cases hg : getNextState s.state "EHLO" with
      | none =>
          simp only [applySMOp, handleHello, hg, Option.getD_none]
          exact histInv_keep s hp hb hle rfl (Or.inl rfl)
      | some ns =>
          cases ch with
          | none =>
              simp only [applySMOp, handleHello, hg, Option.getD_some]
              exact histInv_extend _ hp hb hlt
                (by simp [histTimes, transitionState]) rfl
          | some hn =>
              simp only [applySMOp, handleHello, hg, Option.getD_some]
              exact histInv_extend _ hp hb hlt
                (by simp [histTimes, transitionState]) rfl
  | auth u =>
      cases hg : getNextState s.state "AUTH" with
      | none =>
          simp only [applySMOp, handleAuthentication, hg, Option.getD_none]
          exact histInv_keep s hp hb hle rfl (Or.inl rfl)
      | some ns =>
          simp only [applySMOp, handleAuthentication, hg, Option.getD_some]
          exact histInv_extend _ hp hb hlt
            (by simp [histTimes, transitionState]) rfl
  | mailFrom a =>
      cases hg : getNextState s.state "MAIL" with
      | none =>
          simp only [applySMOp, handleMailFrom, hg, Option.getD_none]
          exact histInv_keep s hp hb hle rfl (Or.inl rfl)
      | some ns =>
          simp only [applySMOp, handleMailFrom, hg, Option.getD_some]
          exact histInv_extend _ hp hb hlt
            (by simp [histTimes, transitionState]) rfl
  | rcptTo a =>
      by_cases hl : MAX_RECIPIENTS ≤ s.rcptTo.length
      · simp only [applySMOp, handleRcptTo, if_pos hl, Option.getD_none]
        exact histInv_keep s hp hb hle rfl (Or.inl rfl)
      · cases hg : getNextState s.state "RCPT" with
        | none =>
            simp only [applySMOp, handleRcptTo, if_neg hl, hg, Option.getD_none]
            exact histInv_keep s hp hb hle rfl (Or.inl rfl)
        | some ns =>
            by_cases hs : s.state = SMTPSessionState.RCPT_TO
            · have hne : ¬ ({ s with rcptTo := s.rcptTo ++ [⟨a, now⟩] } :
                  SMTPSession).state ≠ SMTPSessionState.RCPT_TO := by
                simpa using hs
              simp only [applySMOp, handleRcptTo, if_neg hl, hg, if_neg hne,
                Option.getD_some]
              exact histInv_keep _ hp hb hle (by simp [histTimes]) (Or.inr rfl)
            · have hne : ({ s with rcptTo := s.rcptTo ++ [⟨a, now⟩] } :
                  SMTPSession).state ≠ SMTPSessionState.RCPT_TO := by
                simpa using hs
              simp only [applySMOp, handleRcptTo, if_neg hl, hg, if_pos hne,
                Option.getD_some]
              exact histInv_extend _ hp hb hlt
                (by simp [histTimes, transitionState]) rfl
  | dataStart =>
      by_cases hr : s.rcptTo.length = 0
      · simp only [applySMOp, handleDataStart, if_pos hr, Option.getD_none]
        exact histInv_keep s hp hb hle rfl (Or.inl rfl)
      · cases hg : getNextState s.state "DATA" with
        | none =>
            simp only [applySMOp, handleDataStart, if_neg hr, hg, Option.getD_none]
            exact histInv_keep s hp hb hle rfl (Or.inl rfl)
        | some ns =>
            simp only [applySMOp, handleDataStart, if_neg hr, hg, Option.getD_some]
            exact histInv_extend _ hp hb hlt
              (by simp [histTimes, transitionState]) rfl
  | dataComplete m =>
      cases hg : getNextState s.state "DATA_COMPLETE" with
      | none =>
          simp only [applySMOp, handleDataComplete, hg, Option.getD_none]
          exact histInv_keep s hp hb hle rfl (Or.inl rfl)
      | some ns =>
          simp only [applySMOp, handleDataComplete, hg, Option.getD_some]
          exact histInv_extend _ hp hb hlt
            (by simp [histTimes, transitionState]) rfl
  | reset =>
      simp only [applySMOp]
      exact histInv_extend _ hp hb hlt
        (by simp [histTimes, resetForNewMessage]) rfl
  | activity =>
      simp only [applySMOp]
      exact histInv_keep _ hp hb hle (by simp [histTimes, updateActivity])
        (Or.inr rfl)

/-- Lowering the head of a strictly increasing chain keeps it a chain. -/
theorem chain_lt_of_le {b a : Nat} {l : List Nat}
    (h : List.Chain' (· < ·) (a :: l)) (hba : b ≤ a) :
    List.Chain' (· < ·) (b :: l) := by
  cases l with
  | nil => simp
  | cons c l' =>
      rw [List.chain'_cons] at h ⊢
      exact ⟨lt_of_le_of_lt hba h.1, h.2⟩

/-- The history invariant is preserved along any operation sequence whose
clock times strictly increase, starting strictly after the session's current
activity time. -/
theorem runOps_hist (ops : List (SMOp × Nat)) :
    ∀ s : SMTPSession, HistInv s →
      List.Chain' (· < ·) (s.timestamps.lastActivityAt :: ops.map Prod.snd) →
      HistInv (runOps ops s) := by
  induction ops with
  | nil => intro s h _; exact h
  | cons p rest ih =>
      intro s h hchain
      rw [List.map_cons, List.chain'_cons] at hchain
      obtain ⟨h1, h2⟩ := hchain
      have step := applySMOp_hist p.1 p.2 s h h1
      exact ih _ step.1 (chain_lt_of_le h2 step.2)

/-- C9 (amended): on every session reached from `createEmptySession` by a
sequence of session-manager operations whose clock times strictly increase,
the timestamps of consecutive state-transition history entries strictly
increase. (Two operations at the same clock millisecond produce equal
timestamps, so the hypothesis on the clock is necessary.) -/
theorem stateHistory_strictly_increasing (sessionId : String)
    (conn : ConnectionMetadata) (t0 : Nat) (ops : List (SMOp × Nat))
    (hchain : List.Chain' (· < ·) (t0 :: ops.map Prod.snd)) :
    List.Chain' (· < ·)
      (histTimes (runOps ops (createEmptySession sessionId conn t0))) := by
  have h0 : HistInv (createEmptySession sessionId conn t0) := by
    constructor
    · simp [histTimes, createEmptySession]
    · intro t ht
      simp [histTimes, createEmptySession] at ht
  have hres := runOps_hist ops (createEmptySession sessionId conn t0) h0
    (by simpa [createEmptySession] using hchain)
  exact hres.1.chain'

/-- Counterexample for C9 as stated: two legal operations performed at the
same clock time (as happens within one millisecond) yield a reachable
session whose consecutive history timestamps are equal, not strictly
increasing. -/
theorem stateHistory_equal_timestamps_reachable :
    histTimes (runOps [(SMOp.hello none, 5), (SMOp.auth sampleSessionUser, 5)]
        (createEmptySession "s9" sampleConn 0)) = [5, 5] ∧
    ¬ List.Chain' (· < ·) ([5, 5] : List Nat) := by
  constructor
  · decide
  · intro hc
    rw [List.chain'_cons] at hc
    exact absurd hc.1 (by decide)

/-- Witness for C9 (amended) at a concrete three-operation run. -/
theorem stateHistory_strictly_increasing_witness :
    List.Chain' (· < ·)
      (histTimes (runOps
        [(SMOp.hello none, 1), (SMOp.auth sampleSessionUser, 2),
         (SMOp.mailFrom "a@b.co", 3)]
        (createEmptySession "w9" sampleConn 0))) :=
  stateHistory_strictly_increasing "w9" sampleConn 0
    [(SMOp.hello none, 1), (SMOp.auth sampleSessionUser, 2),
     (SMOp.mailFrom "a@b.co", 3)] (by norm_num [List.chain'_cons])
